import Mathlib

/-!
# Verification of the scroll-progress mapper

Shallow embedding of the scroll-position-driven panel/progress tracker of the
landing-page repository: the breakpoint table (`navigationConfig` in
`Hero.tsx`, `src/unnamed/part_003`), the horizontal-phase sub-mapper
(`onUpdate` in `HorizontalScroll.tsx`), the overall-page-progress computation
and active-section determination (`calculateScrollValues` in
`src/unnamed/part_003`), and the three section-completion helpers of
`VerticalNavigation.tsx`.

JavaScript numbers are modelled as rationals (`ℚ`).  At every concrete input
used below the IEEE-754 double computations of the source coincide with the
rational values (in particular `1.3*1000`, `0.05*1000`, `0.1*1000` and
`0.15*1000` all round to the exact integers), so the rational model is faithful
on these inputs.
-/

set_option autoImplicit false

namespace ScrollMapper

/-- JavaScript `Math.trunc` on a rational: round toward zero. -/
def jsTrunc (q : ℚ) : ℤ :=
  if 0 ≤ q then ⌊q⌋ else ⌈q⌉

/-- JavaScript `x % 1`: the remainder has the sign of the dividend
(`x % 1 = x - Math.trunc x` for finite `x`). -/
def jsModOne (q : ℚ) : ℚ :=
  q - (jsTrunc q : ℚ)

/-- `Math.min(1, Math.max(0, q))`, the clamp to `[0,1]` used throughout the
source. -/
def clamp01 (q : ℚ) : ℚ :=
  min 1 (max 0 q)

/-- `Math.min(100, Math.max(0, q))`, the clamp to `[0,100]` used for
section-completion percentages. -/
def clamp100 (q : ℚ) : ℚ :=
  min 100 (max 0 q)

/-!
## Horizontal-phase sub-mapper

From `HorizontalScroll.tsx`, lines 385-399 (`onUpdate` of the main pin
ScrollTrigger); the identical code also appears in `src/unnamed/part_003`
lines 340-354:

```js
const progress = self.progress;
const totalPanels = panels.length;
let currentPanelIdx = Math.floor(progress * totalPanels);
currentPanelIdx = Math.min(currentPanelIdx, totalPanels - 1);
currentPanelIdx = Math.max(0, currentPanelIdx);
const panelProgressVal = totalPanels > 0 ? ((progress * totalPanels) % 1) : 0;
setHorizontalProgress({ activePanel: currentPanelIdx, progress: panelProgressVal });
```
-/

/-- The `onUpdate` panel mapper: returns `(activePanel, progress)` exactly as
the source computes them.  `totalPanels` is an array length, hence a `ℕ`;
the index is computed in `ℤ` because `Math.min(0, totalPanels - 1)` passes
through `-1` when `totalPanels = 0`. -/
def horizontalOnUpdate (progress : ℚ) (totalPanels : ℕ) : ℤ × ℚ :=
  let scaled : ℚ := progress * (totalPanels : ℚ)
  let idx0 : ℤ := ⌊scaled⌋
  let idx1 : ℤ := min idx0 ((totalPanels : ℤ) - 1)
  let idx2 : ℤ := max 0 idx1
  let panelProgressVal : ℚ := if 0 < totalPanels then jsModOne scaled else 0
  (idx2, panelProgressVal)

/-- Modelled from the spec (section 4.2) for refinement comparison with
`horizontalOnUpdate`: `panelIndex = floor(rawProgress * panelCount)` clamped to
`[0, panelCount-1]`, `panelProgress` the fractional part of
`rawProgress * panelCount`, and the special case `panelCount = 0 ↦ (0, 0)`. -/
def specPanelMap (rawProgress : ℚ) (panelCount : ℕ) : ℤ × ℚ :=
  if panelCount = 0 then (0, 0)
  else
    let scaled : ℚ := rawProgress * (panelCount : ℚ)
    (max 0 (min ⌊scaled⌋ ((panelCount : ℤ) - 1)), scaled - (⌊scaled⌋ : ℚ))

theorem jsModOne_of_nonneg (q : ℚ) (h : 0 ≤ q) : jsModOne q = q - (⌊q⌋ : ℚ) := by
  unfold jsModOne jsTrunc
  rw [if_pos h]

theorem jsModOne_nonneg_lt_one (q : ℚ) (h : 0 ≤ q) :
    0 ≤ jsModOne q ∧ jsModOne q < 1 := by
  rw [jsModOne_of_nonneg q h]
  constructor
  · have := Int.floor_le q
    linarith
  · have := Int.lt_floor_add_one q
    push_cast at this ⊢
    linarith

/-- C2. For `rawProgress ∈ [0,1]` and any `panelCount`, the `onUpdate` mapper
agrees with the spec formula (floor of `rawProgress * panelCount` clamped to
`[0, panelCount-1]`, fractional part as panel progress); `panelCount = 0`
yields `(0, 0)` for every `rawProgress` without dividing by zero; and the two
scenario inputs evaluate as the spec states
(`panelCount=4, rawProgress=0.5 ↦ (2, 0)` and `rawProgress=0.125 ↦ (0, 0.5)`). -/
theorem horizontalOnUpdate_matches_spec :
    (∀ (p : ℚ) (N : ℕ), 0 ≤ p → p ≤ 1 →
      horizontalOnUpdate p N = specPanelMap p N)
    ∧ (∀ q : ℚ, horizontalOnUpdate q 0 = (0, 0))
    ∧ horizontalOnUpdate (1/2) 4 = (2, 0)
    ∧ horizontalOnUpdate (1/8) 4 = (0, 1/2) := by
  have hzero : ∀ q : ℚ, horizontalOnUpdate q 0 = (0, 0) := by
    intro q
    unfold horizontalOnUpdate
    norm_num
  refine ⟨?_, hzero, ?_, ?_⟩
  · intro p N hp0 _hp1
    cases N with
    | zero =>
      rw [hzero p]
      rfl
    | succ n =>
      have hsc : (0:ℚ) ≤ p * ((n + 1 : ℕ) : ℚ) :=
        mul_nonneg hp0 (by positivity)
      simp only [horizontalOnUpdate, specPanelMap, Nat.succ_ne_zero,
        if_false, Nat.succ_pos, if_true, jsModOne_of_nonneg _ hsc]
  · simp only [horizontalOnUpdate, jsModOne, jsTrunc]
    norm_num
  · simp only [horizontalOnUpdate, jsModOne, jsTrunc]
    norm_num

/-- Witness for `horizontalOnUpdate_matches_spec`: the spec agreement applied
at the concrete input `rawProgress = 1/2`, `panelCount = 4`. -/
theorem horizontalOnUpdate_matches_spec_witness :
    horizontalOnUpdate (1/2) 4 = specPanelMap (1/2) 4 :=
  horizontalOnUpdate_matches_spec.1 (1/2) 4 (by norm_num) (by norm_num)

/-- C6. For `rawProgress ∈ [0,1]` and `panelCount ≥ 1`, the panel index lies
in `[0, panelCount-1]` and the panel progress lies in `[0, 1)`. -/
theorem horizontalOnUpdate_invariants (p : ℚ) (N : ℕ) (hp0 : 0 ≤ p)
    (_hp1 : p ≤ 1) (hN : 1 ≤ N) :
    0 ≤ (horizontalOnUpdate p N).1 ∧ (horizontalOnUpdate p N).1 ≤ (N : ℤ) - 1
    ∧ 0 ≤ (horizontalOnUpdate p N).2 ∧ (horizontalOnUpdate p N).2 < 1 := by
  have hsc : (0:ℚ) ≤ p * (N : ℚ) := mul_nonneg hp0 (by positivity)
  have hmod := jsModOne_nonneg_lt_one _ hsc
  unfold horizontalOnUpdate
  refine ⟨le_max_left 0 _, ?_, ?_, ?_⟩
  · have h1 : min ⌊p * (N:ℚ)⌋ ((N:ℤ) - 1) ≤ (N:ℤ) - 1 := min_le_right _ _
    have h2 : (0:ℤ) ≤ (N:ℤ) - 1 := by
      have : (1:ℤ) ≤ (N:ℤ) := by exact_mod_cast hN
      omega
    simp only
    omega
  · simp only [if_pos (Nat.lt_of_lt_of_le Nat.zero_lt_one hN)]
    exact hmod.1
  · simp only [if_pos (Nat.lt_of_lt_of_le Nat.zero_lt_one hN)]
    exact hmod.2

/-- Witness for `horizontalOnUpdate_invariants` at `rawProgress = 3/4`,
`panelCount = 4`. -/
theorem horizontalOnUpdate_invariants_witness :
    0 ≤ (horizontalOnUpdate (3/4) 4).1
    ∧ (horizontalOnUpdate (3/4) 4).1 ≤ (4 : ℤ) - 1
    ∧ 0 ≤ (horizontalOnUpdate (3/4) 4).2 ∧ (horizontalOnUpdate (3/4) 4).2 < 1 :=
  horizontalOnUpdate_invariants (3/4) 4 (by norm_num) (by norm_num) (by norm_num)

/-!
## Overall page progress

From `calculateScrollValues` in `src/unnamed/part_003`, lines 240-260:

```js
let currentOverallProgress = 0;
if (maxScrollableHeight > 0) {
  currentOverallProgress = Math.min(1, Math.max(0, scrollY / maxScrollableHeight));
}
if (isInHorizontalSection && horizontalSectionEl) {
  const mainPinTrigger = getMainHorizontalPinTrigger(horizontalSectionEl);
  if (mainPinTrigger) {
    const pinStartScroll = mainPinTrigger.start;
    const pinEndScroll = mainPinTrigger.end;
    const pinDuration = pinEndScroll - pinStartScroll;
    if (maxScrollableHeight > 0 && pinDuration > 0) {
      const horizontalInternalProgress = mainPinTrigger.progress;
      const pinContributionToTotalScroll = pinDuration / maxScrollableHeight;
      const progressBeforePin = pinStartScroll / maxScrollableHeight;
      currentOverallProgress = progressBeforePin + (horizontalInternalProgress * pinContributionToTotalScroll);
    }
  }
}
setOverallPageScrollProgress(Math.min(1, Math.max(0, currentOverallProgress)));
```

The DOM lookups are abstracted into the booleans `hasHorizontalEl`
(`horizontalSectionEl` is non-null) and `hasPinTrigger` (`mainPinTrigger` was
found); the trigger's `start`, `end` and `progress` are the rational inputs
`pinStartScroll`, `pinEndScroll`, `horizontalInternalProgress`. -/

/-- The value published via `setOverallPageScrollProgress`. -/
def calcOverallProgress (scrollY maxScrollableHeight : ℚ)
    (isInHorizontalSection hasHorizontalEl hasPinTrigger : Bool)
    (pinStartScroll pinEndScroll horizontalInternalProgress : ℚ) : ℚ :=
  let base : ℚ :=
    if 0 < maxScrollableHeight then clamp01 (scrollY / maxScrollableHeight)
    else 0
  let withPin : ℚ :=
    if isInHorizontalSection && hasHorizontalEl && hasPinTrigger then
      let pinDuration := pinEndScroll - pinStartScroll
      if 0 < maxScrollableHeight ∧ 0 < pinDuration then
        let pinContributionToTotalScroll := pinDuration / maxScrollableHeight
        let progressBeforePin := pinStartScroll / maxScrollableHeight
        progressBeforePin + horizontalInternalProgress * pinContributionToTotalScroll
      else base
    else base
  clamp01 withPin

/-- Division that records whether the source would have divided by zero:
`none` means the denominator was `0` at a division site (the JavaScript value
would be `NaN` or `±Infinity`). -/
def guardedDiv (a b : ℚ) : Option ℚ :=
  if b = 0 then none else some (a / b)

/-- `calcOverallProgress` with every division site routed through
`guardedDiv`: `none` would mean some division in the source ran with a zero
denominator. -/
def calcOverallProgressChecked (scrollY maxScrollableHeight : ℚ)
    (isInHorizontalSection hasHorizontalEl hasPinTrigger : Bool)
    (pinStartScroll pinEndScroll horizontalInternalProgress : ℚ) : Option ℚ :=
  let base? : Option ℚ :=
    if 0 < maxScrollableHeight then
      (guardedDiv scrollY maxScrollableHeight).map clamp01
    else some 0
  match base? with
  | none => none
  | some base =>
    if isInHorizontalSection && hasHorizontalEl && hasPinTrigger then
      let pinDuration := pinEndScroll - pinStartScroll
      if 0 < maxScrollableHeight ∧ 0 < pinDuration then
        match guardedDiv pinDuration maxScrollableHeight,
              guardedDiv pinStartScroll maxScrollableHeight with
        | some pinContributionToTotalScroll, some progressBeforePin =>
          some (clamp01 (progressBeforePin +
            horizontalInternalProgress * pinContributionToTotalScroll))
        | _, _ => none
      else some (clamp01 base)
    else some (clamp01 base)

theorem clamp01_idem (q : ℚ) : clamp01 (clamp01 q) = clamp01 q := by
  unfold clamp01
  rcases le_total q 0 with h | h
  · rw [max_eq_left h]
    norm_num
  · rcases le_total q 1 with h1 | h1
    · rw [max_eq_right h, min_eq_right h1, max_eq_right h, min_eq_right h1]
    · rw [max_eq_right h, min_eq_left h1]
      norm_num

theorem clamp01_mono {a b : ℚ} (h : a ≤ b) : clamp01 a ≤ clamp01 b := by
  unfold clamp01
  exact min_le_min le_rfl (max_le_max le_rfl h)

theorem calcOverallProgress_pin_eq (scrollY maxH s e raw : ℚ)
    (hm : 0 < maxH) (hd : s < e) :
    calcOverallProgress scrollY maxH true true true s e raw
      = clamp01 (s / maxH + raw * ((e - s) / maxH)) := by
  simp only [calcOverallProgress, Bool.and_self, if_true, if_pos hm]
  rw [if_pos (show 0 < maxH ∧ 0 < e - s from ⟨hm, sub_pos.mpr hd⟩)]

theorem calcOverallProgress_plain_eq (scrollY maxH s e raw : ℚ)
    (hm : 0 < maxH) (hasEl hasTrigger : Bool) :
    calcOverallProgress scrollY maxH false hasEl hasTrigger s e raw
      = clamp01 (scrollY / maxH) := by
  simp only [calcOverallProgress, Bool.false_and, if_pos hm]
  rw [if_neg (by simp), clamp01_idem]

/-- C3. With the pinned phase active (`isInHorizontalSection`, the section
element and the pin trigger all present), `pinStartScroll < pinEndScroll` and
`maxScrollableHeight > 0`, the published overall progress is
`clamp₀₁(pinStart/maxH + rawProgress * ((pinEnd - pinStart)/maxH))`; outside
the pinned phase (with `maxScrollableHeight > 0`) it is
`clamp₀₁(scrollY/maxH)`. -/
theorem calcOverallProgress_formula (scrollY maxH pinStart pinEnd raw : ℚ)
    (hm : 0 < maxH) :
    (pinStart < pinEnd →
      calcOverallProgress scrollY maxH true true true pinStart pinEnd raw
        = clamp01 (pinStart / maxH + raw * ((pinEnd - pinStart) / maxH)))
    ∧ (∀ hasEl hasTrigger : Bool,
      calcOverallProgress scrollY maxH false hasEl hasTrigger pinStart pinEnd raw
        = clamp01 (scrollY / maxH)) := by
  constructor
  · intro hlt
    exact calcOverallProgress_pin_eq scrollY maxH pinStart pinEnd raw hm hlt
  · intro hasEl hasTrigger
    exact calcOverallProgress_plain_eq scrollY maxH pinStart pinEnd raw hm
      hasEl hasTrigger

/-- Witness for `calcOverallProgress_formula` at `scrollY = 650`,
`maxScrollableHeight = 2000`, pinned range `[1300, 1800]`, raw progress
`1/2`. -/
theorem calcOverallProgress_formula_witness :
    calcOverallProgress 650 2000 true true true 1300 1800 (1/2)
      = clamp01 (1300 / 2000 + (1/2) * ((1800 - 1300) / 2000)) :=
  (calcOverallProgress_formula 650 2000 1300 1800 (1/2) (by norm_num)).1
    (by norm_num)

/-- The published overall progress as a function of the scroll offset, the
pinned phase governing exactly on the pinned range `[pinStart, pinEnd]`, with
`r` the raw progress reported by the pin trigger at each offset. -/
def pageProgressAt (maxH pinStart pinEnd : ℚ) (r : ℚ → ℚ) (y : ℚ) : ℚ :=
  if pinStart ≤ y ∧ y ≤ pinEnd then
    calcOverallProgress y maxH true true true pinStart pinEnd (r y)
  else
    calcOverallProgress y maxH false false false pinStart pinEnd 0

/-- C4.  With the pinned range inside the scrollable range and the raw
progress monotone on it (`0` at entry, `1` at exit, as ScrollTrigger reports),
the published overall progress is monotone non-decreasing in the scroll
offset across both phases, and at each phase boundary the pinned-phase
formula and the plain formula differ by less than `1/100` (in fact they
coincide). -/
theorem overallProgress_monotone (maxH pinStart pinEnd : ℚ) (r : ℚ → ℚ)
    (hm : 0 < maxH) (_h0 : 0 ≤ pinStart) (hse : pinStart < pinEnd)
    (_he : pinEnd ≤ maxH)
    (hmono : ∀ y1 y2, pinStart ≤ y1 → y1 ≤ y2 → y2 ≤ pinEnd → r y1 ≤ r y2)
    (hrs : r pinStart = 0) (hre : r pinEnd = 1) :
    (∀ y1 y2, y1 ≤ y2 →
      pageProgressAt maxH pinStart pinEnd r y1
        ≤ pageProgressAt maxH pinStart pinEnd r y2)
    ∧ |calcOverallProgress pinStart maxH true true true pinStart pinEnd
          (r pinStart)
        - calcOverallProgress pinStart maxH false false false pinStart pinEnd 0|
        < 1/100
    ∧ |calcOverallProgress pinEnd maxH true true true pinStart pinEnd (r pinEnd)
        - calcOverallProgress pinEnd maxH false false false pinStart pinEnd 0|
        < 1/100 := by
  have hD : (0:ℚ) < (pinEnd - pinStart) / maxH :=
    div_pos (by linarith) hm
  have hr0 : ∀ y, pinStart ≤ y → y ≤ pinEnd → 0 ≤ r y := by
    intro y h1 h2
    rw [← hrs]
    exact hmono pinStart y le_rfl h1 h2
  have hr1 : ∀ y, pinStart ≤ y → y ≤ pinEnd → r y ≤ 1 := by
    intro y h1 h2
    rw [← hre]
    exact hmono y pinEnd h1 h2 le_rfl
  have hflow : ∀ y, pinStart ≤ y → y ≤ pinEnd →
      pinStart / maxH ≤ pinStart / maxH + r y * ((pinEnd - pinStart) / maxH) := by
    intro y h1 h2
    have := mul_nonneg (hr0 y h1 h2) (le_of_lt hD)
    linarith
  have hfhigh : ∀ y, pinStart ≤ y → y ≤ pinEnd →
      pinStart / maxH + r y * ((pinEnd - pinStart) / maxH) ≤ pinEnd / maxH := by
    intro y h1 h2
    have h3 : r y * ((pinEnd - pinStart) / maxH) ≤ (pinEnd - pinStart) / maxH := by
      nlinarith [hr1 y h1 h2, hD]
    have h4 : pinStart / maxH + (pinEnd - pinStart) / maxH = pinEnd / maxH := by
      field_simp
    linarith
  have hdivmono : ∀ a b : ℚ, a ≤ b → a / maxH ≤ b / maxH := by
    intro a b hab
    exact (div_le_div_right hm).mpr hab
  refine ⟨?_, ?_, ?_⟩
  · intro y1 y2 h12
    unfold pageProgressAt
    by_cases hy1 : pinStart ≤ y1 ∧ y1 ≤ pinEnd
    · by_cases hy2 : pinStart ≤ y2 ∧ y2 ≤ pinEnd
      · rw [if_pos hy1, if_pos hy2,
          calcOverallProgress_pin_eq _ _ _ _ _ hm hse,
          calcOverallProgress_pin_eq _ _ _ _ _ hm hse]
        apply clamp01_mono
        have := hmono y1 y2 hy1.1 h12 hy2.2
        nlinarith
      · have hy2' : pinEnd < y2 := by
          rcases not_and_or.mp hy2 with h | h
          · exact absurd (le_trans hy1.1 h12) h
          · exact lt_of_not_le h
        rw [if_pos hy1, if_neg hy2,
          calcOverallProgress_pin_eq _ _ _ _ _ hm hse,
          calcOverallProgress_plain_eq _ _ _ _ _ hm]
        calc clamp01 (pinStart / maxH + r y1 * ((pinEnd - pinStart) / maxH))
            ≤ clamp01 (pinEnd / maxH) :=
              clamp01_mono (hfhigh y1 hy1.1 hy1.2)
          _ ≤ clamp01 (y2 / maxH) :=
              clamp01_mono (hdivmono _ _ (le_of_lt hy2'))
    · by_cases hy2 : pinStart ≤ y2 ∧ y2 ≤ pinEnd
      · have hy1' : y1 < pinStart := by
          rcases not_and_or.mp hy1 with h | h
          · exact lt_of_not_le h
          · exact absurd (le_trans h12 hy2.2) h
        rw [if_neg hy1, if_pos hy2,
          calcOverallProgress_plain_eq _ _ _ _ _ hm,
          calcOverallProgress_pin_eq _ _ _ _ _ hm hse]
        calc clamp01 (y1 / maxH)
            ≤ clamp01 (pinStart / maxH) :=
              clamp01_mono (hdivmono _ _ (le_of_lt hy1'))
          _ ≤ clamp01 (pinStart / maxH + r y2 * ((pinEnd - pinStart) / maxH)) :=
              clamp01_mono (hflow y2 hy2.1 hy2.2)
      · rw [if_neg hy1, if_neg hy2,
          calcOverallProgress_plain_eq _ _ _ _ _ hm,
          calcOverallProgress_plain_eq _ _ _ _ _ hm]
        exact clamp01_mono (hdivmono _ _ h12)
  · rw [calcOverallProgress_pin_eq _ _ _ _ _ hm hse,
      calcOverallProgress_plain_eq _ _ _ _ _ hm, hrs]
    simp only [zero_mul, add_zero, sub_self, abs_zero]
    norm_num
  · rw [calcOverallProgress_pin_eq _ _ _ _ _ hm hse,
      calcOverallProgress_plain_eq _ _ _ _ _ hm, hre, one_mul]
    have h4 : pinStart / maxH + (pinEnd - pinStart) / maxH = pinEnd / maxH := by
      field_simp
    rw [h4, sub_self, abs_zero]
    norm_num

/-- Witness for `overallProgress_monotone`: pinned range `[1300, 1800]` inside
a scrollable height of 2000, linear raw progress; overall progress at offset
650 is at most that at offset 1400. -/
theorem overallProgress_monotone_witness :
    pageProgressAt 2000 1300 1800 (fun y => (y - 1300) / 500) 650
      ≤ pageProgressAt 2000 1300 1800 (fun y => (y - 1300) / 500) 1400 :=
  (overallProgress_monotone 2000 1300 1800 (fun y => (y - 1300) / 500)
    (by norm_num) (by norm_num) (by norm_num) (by norm_num)
    (fun y1 y2 h1 h12 h2 =>
      (div_le_div_right (by norm_num : (0:ℚ) < 500)).mpr (by linarith))
    (by norm_num) (by norm_num)).1 650 1400 (by norm_num)

/-!
## Breakpoint table and section-completion helpers

`navigationConfig` from `src/unnamed/part_003`, lines 72-83 (the `title` and
`icon` fields of each entry are carried verbatim to the UI and never enter any
computation below, so the embedding keeps only `id` and `scrollPosition`):

```js
const vhVal = typeof window !== 'undefined' ? window.innerHeight : 1000;
const horizontalSectionStartApprox = vhVal * 1.3;
return [
  { id: 'home', scrollPosition: 0, ... },
  { id: 'theme-1', scrollPosition: horizontalSectionStartApprox, ... },
  { id: 'theme-2', scrollPosition: horizontalSectionStartApprox + vhVal * 0.05, ... },
  { id: 'theme-3', scrollPosition: horizontalSectionStartApprox + vhVal * 0.1, ... },
  { id: 'theme-4', scrollPosition: horizontalSectionStartApprox + vhVal * 0.15, ... }
];
```
-/

/-- One breakpoint-table entry (`id` and `scrollPosition` of a
`navigationConfig` item). -/
structure NavItem where
  id : String
  scrollPosition : ℚ
deriving DecidableEq, Inhabited

/-- The breakpoint table built from the viewport height `vhVal`. -/
def navigationConfig (vhVal : ℚ) : List NavItem :=
  let horizontalSectionStartApprox := vhVal * (13/10)
  [ ⟨"home", 0⟩,
    ⟨"theme-1", horizontalSectionStartApprox⟩,
    ⟨"theme-2", horizontalSectionStartApprox + vhVal * (5/100)⟩,
    ⟨"theme-3", horizontalSectionStartApprox + vhVal * (1/10)⟩,
    ⟨"theme-4", horizontalSectionStartApprox + vhVal * (15/100)⟩ ]

/-- `navigationThemes` from `src/unnamed/part_003` lines 85-90, reduced to the
`id` fields (the titles never enter a computation). -/
def navigationThemes : List ℕ := [1, 2, 3, 4]

/-- JavaScript `s.startsWith(pat)`, computed structurally on the character
lists so that it reduces in the kernel. -/
def jsStartsWith (s pat : String) : Bool :=
  pat.data.isPrefixOf s.data

/-- Auxiliary for `jsReplaceFirst`, structural recursion on the subject. -/
def replaceFirstAux (pat repl : List Char) : List Char → List Char
  | [] => []
  | c :: rest =>
    if pat.isPrefixOf (c :: rest) then repl ++ (c :: rest).drop pat.length
    else c :: replaceFirstAux pat repl rest

/-- JavaScript `s.replace(pat, repl)` with a non-empty string pattern: replaces
only the first occurrence. -/
def jsReplaceFirst (s pat repl : String) : String :=
  ⟨replaceFirstAux pat.data repl.data s.data⟩

/-- JavaScript `parseInt` on a string that has been stripped of its prefix:
parses the longest leading digit run, `none` playing the role of `NaN`. -/
def jsParseIntNat (s : String) : Option ℕ :=
  let digits := s.data.takeWhile Char.isDigit
  if digits.isEmpty then none
  else some (digits.foldl (fun n c => 10 * n + (c.toNat - '0'.toNat)) 0)

/-!
`calculateThemeSectionCompletion` from `VerticalNavigation.tsx`, lines 24-38:

```js
const themeIdFromNav = parseInt(currentNavItemId.replace('theme-', ''));
const themeIndexInParentArray = themes.findIndex(t => t.id === themeIdFromNav);
if (themeIndexInParentArray === horizontalProgress.activePanel) {
  return horizontalProgress.progress * 100;
} else if (themeIndexInParentArray < horizontalProgress.activePanel) {
  return 100;
}
return 0;
```

`findIndex` returns `-1` when nothing matches (also when `parseInt` returned
`NaN`, which compares unequal to every id), so the index is an integer. -/

/-- Theme-section completion during the pinned phase.  `themes` is the list of
theme ids, `activePanel`/`progress` the stored `horizontalProgress`. -/
def calculateThemeSectionCompletion (currentNavItemId : String)
    (themes : List ℕ) (activePanel : ℤ) (progress : ℚ) : ℚ :=
  let themeIdFromNav := jsParseIntNat (jsReplaceFirst currentNavItemId "theme-" "")
  let themeIndexInParentArray : ℤ :=
    match themeIdFromNav with
    | none => -1
    | some tid =>
      match themes.findIdx? (fun t => t = tid) with
      | some i => (i : ℤ)
      | none => -1
  if themeIndexInParentArray = activePanel then progress * 100
  else if themeIndexInParentArray < activePanel then 100
  else 0

/-!
`calculateHomeSectionCompletion` from `VerticalNavigation.tsx`, lines 40-50:

```js
const nextSection = navigationSections[1];
const homeSectionScrollHeight = nextSection ? nextSection.scrollPosition : windowHeight;
return homeSectionScrollHeight > 0
  ? Math.min(100, Math.max(0, (currentScrollY / homeSectionScrollHeight) * 100))
  : (currentScrollY > 0 ? 100 : 0);
```
-/

/-- Home-section completion. -/
def calculateHomeSectionCompletion (currentScrollY : ℚ)
    (navigationSections : List NavItem) (windowHeight : ℚ) : ℚ :=
  let homeSectionScrollHeight : ℚ :=
    match navigationSections.get? 1 with
    | some nextSection => nextSection.scrollPosition
    | none => windowHeight
  if 0 < homeSectionScrollHeight then
    clamp100 (currentScrollY / homeSectionScrollHeight * 100)
  else if 0 < currentScrollY then 100 else 0

/-- `calculateHomeSectionCompletion` with its division routed through
`guardedDiv`. -/
def calculateHomeSectionCompletionChecked (currentScrollY : ℚ)
    (navigationSections : List NavItem) (windowHeight : ℚ) : Option ℚ :=
  let homeSectionScrollHeight : ℚ :=
    match navigationSections.get? 1 with
    | some nextSection => nextSection.scrollPosition
    | none => windowHeight
  if 0 < homeSectionScrollHeight then
    (guardedDiv currentScrollY homeSectionScrollHeight).map
      (fun q => clamp100 (q * 100))
  else some (if 0 < currentScrollY then 100 else 0)

/-!
`calculateGeneralSectionCompletion` from `VerticalNavigation.tsx`,
lines 52-77:

```js
const sectionStartPos = currentNavItem.scrollPosition;
const nextSectionIndex = activeNavIndex + 1;
let sectionEndPos = maxScrollableHeight + windowHeight;
if (nextSectionIndex < navigationSections.length) {
  sectionEndPos = navigationSections[nextSectionIndex].scrollPosition;
}
const sectionScrollRange = sectionEndPos - sectionStartPos;
if (sectionScrollRange > 0) {
  return Math.min(100, Math.max(0, ((currentScrollY - sectionStartPos) / sectionScrollRange) * 100));
} else if (currentScrollY >= sectionStartPos) {
  return 100;
}
return 0;
```
-/

/-- General (non-home, non-pinned) section completion. -/
def calculateGeneralSectionCompletion (currentScrollY : ℚ)
    (currentNavItem : NavItem) (activeNavIndex : ℕ)
    (navigationSections : List NavItem)
    (maxScrollableHeight windowHeight : ℚ) : ℚ :=
  let sectionStartPos := currentNavItem.scrollPosition
  let sectionEndPos : ℚ :=
    match navigationSections.get? (activeNavIndex + 1) with
    | some nextSection => nextSection.scrollPosition
    | none => maxScrollableHeight + windowHeight
  let sectionScrollRange := sectionEndPos - sectionStartPos
  if 0 < sectionScrollRange then
    clamp100 ((currentScrollY - sectionStartPos) / sectionScrollRange * 100)
  else if sectionStartPos ≤ currentScrollY then 100
  else 0

/-- `calculateGeneralSectionCompletion` with its division routed through
`guardedDiv`. -/
def calculateGeneralSectionCompletionChecked (currentScrollY : ℚ)
    (currentNavItem : NavItem) (activeNavIndex : ℕ)
    (navigationSections : List NavItem)
    (maxScrollableHeight windowHeight : ℚ) : Option ℚ :=
  let sectionStartPos := currentNavItem.scrollPosition
  let sectionEndPos : ℚ :=
    match navigationSections.get? (activeNavIndex + 1) with
    | some nextSection => nextSection.scrollPosition
    | none => maxScrollableHeight + windowHeight
  let sectionScrollRange := sectionEndPos - sectionStartPos
  if 0 < sectionScrollRange then
    (guardedDiv (currentScrollY - sectionStartPos) sectionScrollRange).map
      (fun q => clamp100 (q * 100))
  else if sectionStartPos ≤ currentScrollY then some 100
  else some 0

theorem guardedDiv_of_pos {b : ℚ} (a : ℚ) (h : 0 < b) :
    guardedDiv a b = some (a / b) := by
  unfold guardedDiv
  rw [if_neg (ne_of_gt h)]

/-- C5. `maxScrollableHeight = 0` short-circuits the published overall
progress to `0` for every scroll offset and every phase flag; and none of the
division sites of `calculateScrollValues`, `calculateHomeSectionCompletion`
or `calculateGeneralSectionCompletion` can run with a zero denominator: the
`guardedDiv`-instrumented variants return `some` of the uninstrumented value
on all rational inputs. -/
theorem no_zero_division_and_zero_height :
    (∀ (scrollY : ℚ) (inH hasEl hasTrig : Bool) (s e raw : ℚ),
      calcOverallProgress scrollY 0 inH hasEl hasTrig s e raw = 0)
    ∧ (∀ (scrollY maxH : ℚ) (inH hasEl hasTrig : Bool) (s e raw : ℚ),
      calcOverallProgressChecked scrollY maxH inH hasEl hasTrig s e raw
        = some (calcOverallProgress scrollY maxH inH hasEl hasTrig s e raw))
    ∧ (∀ (y : ℚ) (sections : List NavItem) (wh : ℚ),
      calculateHomeSectionCompletionChecked y sections wh
        = some (calculateHomeSectionCompletion y sections wh))
    ∧ (∀ (y : ℚ) (item : NavItem) (idx : ℕ) (sections : List NavItem)
        (maxH wh : ℚ),
      calculateGeneralSectionCompletionChecked y item idx sections maxH wh
        = some (calculateGeneralSectionCompletion y item idx sections maxH wh)) := by
  refine ⟨?_, ?_, ?_, ?_⟩
  · intro scrollY inH hasEl hasTrig s e raw
    simp only [calcOverallProgress, lt_self_iff_false, false_and, if_false]
    cases inH <;> cases hasEl <;> cases hasTrig <;>
      simp [clamp01]
  · intro scrollY maxH inH hasEl hasTrig s e raw
    by_cases hm : 0 < maxH
    · simp only [calcOverallProgressChecked, calcOverallProgress, if_pos hm,
        guardedDiv_of_pos _ hm, Option.map_some']
      by_cases hb : (inH && hasEl && hasTrig) = true
      · simp only [hb, if_true]
        by_cases hd : 0 < maxH ∧ 0 < e - s
        · rw [if_pos hd, if_pos hd]
        · rw [if_neg hd, if_neg hd]
      · rw [Bool.not_eq_true] at hb
        simp [hb]
    · simp only [calcOverallProgressChecked, calcOverallProgress, if_neg hm]
      by_cases hb : (inH && hasEl && hasTrig) = true
      · simp only [hb, if_true]
        rw [if_neg (fun h => hm h.1), if_neg (fun h => hm h.1)]
      · rw [Bool.not_eq_true] at hb
        simp [hb]
  · intro y sections wh
    unfold calculateHomeSectionCompletionChecked calculateHomeSectionCompletion
    cases hsec : sections.get? 1 with
    | none =>
      simp only
      by_cases hh : 0 < wh
      · rw [if_pos hh, if_pos hh, guardedDiv_of_pos _ hh, Option.map_some']
      · rw [if_neg hh, if_neg hh]
    | some nextSection =>
      simp only
      by_cases hh : 0 < nextSection.scrollPosition
      · rw [if_pos hh, if_pos hh, guardedDiv_of_pos _ hh, Option.map_some']
      · rw [if_neg hh, if_neg hh]
  · intro y item idx sections maxH wh
    unfold calculateGeneralSectionCompletionChecked
      calculateGeneralSectionCompletion
    cases hsec : sections.get? (idx + 1) with
    | none =>
      simp only
      by_cases hr : 0 < maxH + wh - item.scrollPosition
      · rw [if_pos hr, if_pos hr, guardedDiv_of_pos _ hr, Option.map_some']
      · rw [if_neg hr, if_neg hr]
        by_cases hy : item.scrollPosition ≤ y
        · rw [if_pos hy, if_pos hy]
        · rw [if_neg hy, if_neg hy]
    | some nextSection =>
      simp only
      by_cases hr : 0 < nextSection.scrollPosition - item.scrollPosition
      · rw [if_pos hr, if_pos hr, guardedDiv_of_pos _ hr, Option.map_some']
      · rw [if_neg hr, if_neg hr]
        by_cases hy : item.scrollPosition ≤ y
        · rw [if_pos hy, if_pos hy]
        · rw [if_neg hy, if_neg hy]

/-!
## Active-section determination (outside the pinned phase)

From `calculateScrollValues` in `src/unnamed/part_003`, lines 271-304:

```js
let closestSectionId = navigationConfig[0].id;
let minDistance = Infinity;
for (const navItem of navigationConfig) {
  let isConsiderable = true;
  if (navItem.id.startsWith('theme-')) {
    if (horizontalSectionEl) {
      const rect = horizontalSectionEl.getBoundingClientRect();
      if (scrollY < (rect.top + scrollY - windowHeight * 0.3) || scrollY > (rect.bottom + scrollY + windowHeight * 0.3)) {
      } else {
        isConsiderable = false;
      }
    } else {
      isConsiderable = false;
    }
  }
  if (isConsiderable) {
    const distance = Math.abs(scrollY - navItem.scrollPosition);
    if (distance < minDistance) {
      minDistance = distance;
      closestSectionId = navItem.id;
    }
  }
}
const proximityThreshold = windowHeight * 0.45;
if (minDistance < proximityThreshold && currentSection !== closestSectionId) {
   setCurrentSection(closestSectionId);
} else if (scrollY < navigationConfig[0].scrollPosition + proximityThreshold && currentSection !== navigationConfig[0].id) {
   setCurrentSection(navigationConfig[0].id);
}
```

The bounding rectangle of the horizontal section is abstracted into its
viewport-relative `rectTop`/`rectBottom` and the boolean `hasHorizontalEl`;
`minDistance = Infinity` is modelled as `none`.  When neither branch fires the
React state keeps its previous value, so the function returns the previous
`currentSection` in that case. -/

/-- Whether the loop may consider a `navigationConfig` item at the current
scroll position (theme items are skipped while the horizontal section is near
the viewport or absent). -/
def isConsiderable (scrollY windowHeight rectTop rectBottom : ℚ)
    (hasHorizontalEl : Bool) (navItem : NavItem) : Bool :=
  if jsStartsWith navItem.id "theme-" then
    if hasHorizontalEl then
      decide (scrollY < rectTop + scrollY - windowHeight * (3/10)) ||
        decide (rectBottom + scrollY + windowHeight * (3/10) < scrollY)
    else false
  else true

/-- `Math.abs(scrollY - navItem.scrollPosition)`. -/
def navDistance (scrollY : ℚ) (navItem : NavItem) : ℚ :=
  |scrollY - navItem.scrollPosition|

/-- One iteration of the closest-section loop; the accumulator is
`(closestSectionId, minDistance)` with `none` for `Infinity`. -/
def selStep (scrollY : ℚ) (cons : NavItem → Bool)
    (acc : String × Option ℚ) (navItem : NavItem) : String × Option ℚ :=
  if cons navItem then
    match acc.2 with
    | none => (navItem.id, some (navDistance scrollY navItem))
    | some m =>
      if navDistance scrollY navItem < m then
        (navItem.id, some (navDistance scrollY navItem))
      else acc
  else acc

/-- The whole loop: fold `selStep` over the config, starting from
`(navigationConfig[0].id, Infinity)`. -/
def selectClosest (scrollY : ℚ) (cons : NavItem → Bool)
    (config : List NavItem) : String × Option ℚ :=
  config.foldl (selStep scrollY cons) (config.headI.id, none)

/-- The new `currentSection` produced by the non-pinned branch of
`calculateScrollValues` (previous value kept when neither `setCurrentSection`
branch fires). -/
def calcCurrentSection (scrollY windowHeight rectTop rectBottom : ℚ)
    (hasHorizontalEl : Bool) (config : List NavItem)
    (currentSection : String) : String :=
  let r := selectClosest scrollY
    (isConsiderable scrollY windowHeight rectTop rectBottom hasHorizontalEl)
    config
  let proximityThreshold := windowHeight * (45/100)
  let fallback : String :=
    if scrollY < config.headI.scrollPosition + proximityThreshold
        ∧ currentSection ≠ config.headI.id
    then config.headI.id else currentSection
  match r.2 with
  | some minDistance =>
    if minDistance < proximityThreshold ∧ currentSection ≠ r.1 then r.1
    else fallback
  | none => fallback

/-- The pinned-phase branch of the section determination
(`src/unnamed/part_003` lines 263-270): the section follows the active panel
(`theme-<id>`), the previous value being kept when the panel index has no
theme. -/
def calcSectionInHorizontal (themes : List ℕ) (activePanel : ℤ)
    (currentSection : String) : String :=
  if activePanel < 0 then currentSection
  else
    match themes.get? activePanel.toNat with
    | some tid => "theme-" ++ toString tid
    | none => currentSection

/-- Modelled from the spec (section 4.1) for refinement comparison with
`calcCurrentSection`: the predecessor search returning the greatest index `i`
with `breakpoints[i].scrollPosition ≤ scrollOffset`, clamped to `[0, n-1]`
(index `0` when every breakpoint lies above `scrollOffset`). -/
def sectionAtSpec (breakpoints : List NavItem) (scrollOffset : ℚ) : ℕ :=
  let hits := (List.range breakpoints.length).filter
    (fun i => decide ((breakpoints.getD i default).scrollPosition ≤ scrollOffset))
  match hits.getLast? with
  | some i => i
  | none => 0

theorem foldl_selStep_stable (scrollY : ℚ) (cons : NavItem → Bool)
    (l : List NavItem) (s : String) (m₀ : ℚ)
    (h : ∀ it ∈ l, cons it = true → m₀ ≤ navDistance scrollY it) :
    l.foldl (selStep scrollY cons) (s, some m₀) = (s, some m₀) := by
  revert h
  induction l with
  | nil => intro _; rfl
  | cons a l ih =>
    intro h
    rw [List.foldl_cons]
    have step : selStep scrollY cons (s, some m₀) a = (s, some m₀) := by
      unfold selStep
      by_cases hc : cons a = true
      · rw [if_pos hc]
        simp only
        rw [if_neg (not_lt.mpr (h a (List.mem_cons_self a l) hc))]
      · rw [if_neg hc]
    rw [step]
    exact ih (fun it hit hc => h it (List.mem_cons_of_mem a hit) hc)

theorem foldl_selStep_spec (scrollY : ℚ) (cons : NavItem → Bool) :
    ∀ (l : List NavItem) (s : String) (md : Option ℚ),
      (∀ it ∈ l, cons it = true →
        ∃ m, (l.foldl (selStep scrollY cons) (s, md)).2 = some m
          ∧ m ≤ navDistance scrollY it)
      ∧ (∀ m₀, md = some m₀ →
        ∃ m, (l.foldl (selStep scrollY cons) (s, md)).2 = some m ∧ m ≤ m₀)
      ∧ (l.foldl (selStep scrollY cons) (s, md) = (s, md)
        ∨ ∃ it ∈ l, cons it = true
            ∧ (l.foldl (selStep scrollY cons) (s, md)).1 = it.id
            ∧ (l.foldl (selStep scrollY cons) (s, md)).2
                = some (navDistance scrollY it)) := by
  intro l
  induction l with
  | nil =>
    intro s md
    refine ⟨fun it hit => absurd hit (List.not_mem_nil it), ?_, Or.inl rfl⟩
    intro m₀ hm₀
    exact ⟨m₀, by rw [List.foldl_nil, hm₀], le_rfl⟩
  | cons a l ih =>
    intro s md
    by_cases hc : cons a = true
    · cases md with
      | none =>
        have hstep : selStep scrollY cons (s, none) a
            = (a.id, some (navDistance scrollY a)) := by
          unfold selStep
          rw [if_pos hc]
        obtain ⟨ih1, ih2, ih3⟩ := ih a.id (some (navDistance scrollY a))
        rw [List.foldl_cons, hstep]
        refine ⟨?_, ?_, ?_⟩
        · intro it hit hcit
          rcases List.mem_cons.mp hit with rfl | hmem
          · exact ih2 (navDistance scrollY it) rfl
          · exact ih1 it hmem hcit
        · intro m₀ hm₀
          exact absurd hm₀ (Option.noConfusion)
        · rcases ih3 with heq | ⟨it, hmem, hcit, hid, hdist⟩
          · exact Or.inr ⟨a, List.mem_cons_self a l, hc,
              by rw [heq], by rw [heq]⟩
          · exact Or.inr ⟨it, List.mem_cons_of_mem a hmem, hcit, hid, hdist⟩
      | some m₀ =>
        by_cases hlt : navDistance scrollY a < m₀
        · have hstep : selStep scrollY cons (s, some m₀) a
              = (a.id, some (navDistance scrollY a)) := by
            unfold selStep
            rw [if_pos hc]
            simp only
            rw [if_pos hlt]
          obtain ⟨ih1, ih2, ih3⟩ := ih a.id (some (navDistance scrollY a))
          rw [List.foldl_cons, hstep]
          refine ⟨?_, ?_, ?_⟩
          · intro it hit hcit
            rcases List.mem_cons.mp hit with rfl | hmem
            · exact ih2 (navDistance scrollY it) rfl
            · exact ih1 it hmem hcit
          · intro m₁ hm₁
            obtain ⟨m, hm, hle⟩ := ih2 (navDistance scrollY a) rfl
            obtain rfl : m₀ = m₁ := Option.some.inj hm₁
            exact ⟨m, hm, le_trans hle (le_of_lt hlt)⟩
          · rcases ih3 with heq | ⟨it, hmem, hcit, hid, hdist⟩
            · exact Or.inr ⟨a, List.mem_cons_self a l, hc,
                by rw [heq], by rw [heq]⟩
            · exact Or.inr ⟨it, List.mem_cons_of_mem a hmem, hcit, hid, hdist⟩
        · have hstep : selStep scrollY cons (s, some m₀) a = (s, some m₀) := by
            unfold selStep
            rw [if_pos hc]
            simp only
            rw [if_neg hlt]
          obtain ⟨ih1, ih2, ih3⟩ := ih s (some m₀)
          rw [List.foldl_cons, hstep]
          refine ⟨?_, ih2, ?_⟩
          · intro it hit hcit
            rcases List.mem_cons.mp hit with rfl | hmem
            · obtain ⟨m, hm, hle⟩ := ih2 m₀ rfl
              exact ⟨m, hm, le_trans hle (not_lt.mp hlt)⟩
            · exact ih1 it hmem hcit
          · rcases ih3 with heq | ⟨it, hmem, hcit, hid, hdist⟩
            · exact Or.inl heq
            · exact Or.inr ⟨it, List.mem_cons_of_mem a hmem, hcit, hid, hdist⟩
    · have hstep : selStep scrollY cons (s, md) a = (s, md) := by
        unfold selStep
        rw [if_neg hc]
      obtain ⟨ih1, ih2, ih3⟩ := ih s md
      rw [List.foldl_cons, hstep]
      refine ⟨?_, ih2, ?_⟩
      · intro it hit hcit
        rcases List.mem_cons.mp hit with rfl | hmem
        · exact absurd hcit hc
        · exact ih1 it hmem hcit
      · rcases ih3 with heq | ⟨it, hmem, hcit, hid, hdist⟩
        · exact Or.inl heq
        · exact Or.inr ⟨it, List.mem_cons_of_mem a hmem, hcit, hid, hdist⟩

/-- When the head of the config is considerable and achieves the least
distance, the loop returns it (the source keeps the earliest minimiser because
later items must be strictly closer to replace it). -/
theorem selectClosest_head (scrollY : ℚ) (cons : NavItem → Bool)
    (c : NavItem) (rest : List NavItem) (hc : cons c = true)
    (hmin : ∀ it ∈ rest, navDistance scrollY c ≤ navDistance scrollY it) :
    selectClosest scrollY cons (c :: rest)
      = (c.id, some (navDistance scrollY c)) := by
  unfold selectClosest
  rw [List.foldl_cons]
  have step : selStep scrollY cons ((c :: rest).headI.id, none) c
      = (c.id, some (navDistance scrollY c)) := by
    unfold selStep
    rw [if_pos hc]
  rw [step]
  exact foldl_selStep_stable scrollY cons rest c.id _
    (fun it hit _ => hmin it hit)

/-- Whenever the loop ends with a finite minimum, the returned id belongs to a
considerable config item realising the least distance among all considerable
items. -/
theorem selectClosest_min (scrollY : ℚ) (cons : NavItem → Bool)
    (config : List NavItem) (m : ℚ)
    (hm : (selectClosest scrollY cons config).2 = some m) :
    ∃ it ∈ config, cons it = true
      ∧ (selectClosest scrollY cons config).1 = it.id
      ∧ navDistance scrollY it = m
      ∧ ∀ it' ∈ config, cons it' = true → m ≤ navDistance scrollY it' := by
  obtain ⟨h1, _h2, h3⟩ :=
    foldl_selStep_spec scrollY cons config config.headI.id none
  rcases h3 with heq | ⟨it, hmem, hcit, hid, hdist⟩
  · rw [show (selectClosest scrollY cons config).2
        = (config.foldl (selStep scrollY cons) (config.headI.id, none)).2
      from rfl, heq] at hm
    exact absurd hm (Option.noConfusion)
  · refine ⟨it, hmem, hcit, hid, ?_, ?_⟩
    · have : some (navDistance scrollY it) = some m := by
        rw [← hdist]
        exact hm.symm ▸ rfl
      exact Option.some.inj (hdist.symm.trans hm)
    · intro it' hmem' hcit'
      obtain ⟨m', hm', hle⟩ := h1 it' hmem' hcit'
      obtain rfl : m' = m := Option.some.inj (hm'.symm.trans hm)
      exact hle

/-- C1 counterexample.  The active-section selection is not the
predecessor search the spec describes: at `scrollOffset = 1200` (viewport
height 1000, horizontal section far from the viewport so theme items are
considerable, previous section `home`) the code selects `theme-1`, whereas
the greatest index with `scrollPosition ≤ 1200` is `0` (`home`). -/
theorem calcCurrentSection_not_predecessor :
    calcCurrentSection 1200 1000 400 800 true (navigationConfig 1000) "home"
      = "theme-1"
    ∧ sectionAtSpec (navigationConfig 1000) 1200 = 0
    ∧ ((navigationConfig 1000).getD 0 default).id = "home"
    ∧ ("theme-1" : String) ≠ "home" := by
  refine ⟨?_, ?_, ?_, by decide⟩
  · norm_num [calcCurrentSection, selectClosest, selStep, isConsiderable,
      navDistance, navigationConfig, jsStartsWith, List.headI]
  · norm_num [sectionAtSpec, navigationConfig, List.range, List.range.loop,
      List.filter]
  · norm_num [navigationConfig]

/-- C1 (amended).  The selection is a nearest-breakpoint search with
hysteresis: whenever the loop ends with a finite minimum the chosen id is that
of a considerable item at minimal `|scrollOffset - scrollPosition|` (the
earliest such item, since later items must be strictly closer to replace it);
and every `scrollOffset` at or before the first breakpoint still maps to
index 0 (the first section), for any previous section and any rectangle
geometry. -/
theorem calcCurrentSection_nearest_with_hysteresis
    (scrollY wh rectTop rectBottom : ℚ) (hasEl : Bool)
    (c : NavItem) (rest : List NavItem) (prev : String)
    (hhead : jsStartsWith c.id "theme-" = false)
    (hwh : 0 < wh)
    (hmin : ∀ it ∈ c :: rest, c.scrollPosition ≤ it.scrollPosition) :
    (scrollY ≤ c.scrollPosition →
      calcCurrentSection scrollY wh rectTop rectBottom hasEl (c :: rest) prev
        = c.id)
    ∧ (∀ m,
        (selectClosest scrollY
          (isConsiderable scrollY wh rectTop rectBottom hasEl) (c :: rest)).2
          = some m →
        ∃ it ∈ c :: rest,
          isConsiderable scrollY wh rectTop rectBottom hasEl it = true
          ∧ (selectClosest scrollY
              (isConsiderable scrollY wh rectTop rectBottom hasEl)
              (c :: rest)).1 = it.id
          ∧ navDistance scrollY it = m
          ∧ ∀ it' ∈ c :: rest,
              isConsiderable scrollY wh rectTop rectBottom hasEl it' = true →
              m ≤ navDistance scrollY it') := by
  constructor
  · intro hoff
    have hcons : isConsiderable scrollY wh rectTop rectBottom hasEl c = true := by
      simp [isConsiderable, hhead]
    have hminD : ∀ it ∈ rest,
        navDistance scrollY c ≤ navDistance scrollY it := by
      intro it hit
      have h1 : scrollY ≤ it.scrollPosition :=
        le_trans hoff (hmin it (List.mem_cons_of_mem c hit))
      have h2 := hmin it (List.mem_cons_of_mem c hit)
      unfold navDistance
      rw [abs_of_nonpos (by linarith : scrollY - c.scrollPosition ≤ 0),
        abs_of_nonpos (by linarith : scrollY - it.scrollPosition ≤ 0)]
      linarith
    have hsel := selectClosest_head scrollY
      (isConsiderable scrollY wh rectTop rectBottom hasEl) c rest hcons hminD
    simp only [calcCurrentSection]
    rw [hsel]
    simp only [List.headI]
    by_cases hp : prev = c.id
    · simp [hp]
    · by_cases hlt : navDistance scrollY c < wh * (45/100)
      · rw [if_pos ⟨hlt, hp⟩]
      · rw [if_neg (fun h => hlt h.1)]
        have hthr : scrollY < c.scrollPosition + wh * (45/100) := by
          have : 0 < wh * (45/100) := by positivity
          linarith
        rw [if_pos ⟨hthr, hp⟩]
  · intro m hm
    exact selectClosest_min scrollY _ (c :: rest) m hm

/-- Witness for `calcCurrentSection_nearest_with_hysteresis`: at
`scrollOffset = 0` (at the first breakpoint) the selection yields `home` even
from previous section `theme-4`. -/
theorem calcCurrentSection_nearest_with_hysteresis_witness :
    calcCurrentSection 0 1000 5 5 false
      (⟨"home", 0⟩ :: [⟨"theme-1", 1300⟩, ⟨"theme-2", 1350⟩,
        ⟨"theme-3", 1400⟩, ⟨"theme-4", 1450⟩]) "theme-4" = "home" :=
  (calcCurrentSection_nearest_with_hysteresis 0 1000 5 5 false
    ⟨"home", 0⟩ [⟨"theme-1", 1300⟩, ⟨"theme-2", 1350⟩,
      ⟨"theme-3", 1400⟩, ⟨"theme-4", 1450⟩] "theme-4"
    (by decide) (by norm_num)
    (by intro it hit; fin_cases hit <;> norm_num)).1 (by norm_num)

/-- C7 counterexample.  The table built from viewport height 1000 is not the
one the claim lists: the code computes `theme-2` at
`1.3*1000 + 0.05*1000 = 1350`, not `1365` (and likewise `1400`/`1450`
instead of `1430`/`1495`). -/
theorem navigationConfig_at_1000 :
    (navigationConfig 1000).getD 2 default = ⟨"theme-2", 1350⟩
    ∧ ((1350 : ℚ) ≠ 1365) := by
  constructor
  · norm_num [navigationConfig]
  · norm_num

/-- C7 (amended).  With the table the code actually builds from viewport
height 1000 (`[{home,0},{theme-1,1300},{theme-2,1350},{theme-3,1400},
{theme-4,1450}]`), evaluating at `scrollOffset = 650` outside the pinned phase
with previous section `home` yields `activeSectionId = "home"` (for every
rectangle geometry) and a home-section completion of `50`. -/
theorem scenario_scroll650 :
    (∀ (rectTop rectBottom : ℚ) (hasEl : Bool),
      calcCurrentSection 650 1000 rectTop rectBottom hasEl
        (navigationConfig 1000) "home" = "home")
    ∧ calculateHomeSectionCompletion 650 (navigationConfig 1000) 1000 = 50 := by
  constructor
  · intro rectTop rectBottom hasEl
    have hconf : navigationConfig 1000 =
        ⟨"home", 0⟩ :: [⟨"theme-1", 1300⟩, ⟨"theme-2", 1350⟩,
          ⟨"theme-3", 1400⟩, ⟨"theme-4", 1450⟩] := by
      norm_num [navigationConfig]
    have hs : jsStartsWith "home" "theme-" = false := by decide
    have hcons : isConsiderable 650 1000 rectTop rectBottom hasEl
        ⟨"home", 0⟩ = true := by
      simp [isConsiderable, hs]
    have hsel : selectClosest 650
        (isConsiderable 650 1000 rectTop rectBottom hasEl)
        (navigationConfig 1000)
        = ("home", some (navDistance 650 ⟨"home", 0⟩)) := by
      rw [hconf]
      refine selectClosest_head _ _ _ _ hcons ?_
      intro it hit
      fin_cases hit <;> norm_num [navDistance]
    simp only [calcCurrentSection]
    rw [hsel]
    norm_num [navDistance, hconf, List.headI]
  · norm_num [calculateHomeSectionCompletion, navigationConfig, clamp100]

/-- C9 counterexample.  For the last section the denominator is the distance
from the section start to the full document height
(`maxScrollableHeight + windowHeight`), so completion does not reach 100% at
the end of the scrollable range: with the table from viewport height 1000,
`maxScrollableHeight = 2000`, `windowHeight = 1000` and
`scrollOffset = 2000` (the end of the scrollable range, past the last
breakpoint 1450) the completion is `1100/31 ≈ 35.5`, not `100`. -/
theorem lastSection_not_saturated_at_scroll_end :
    calculateGeneralSectionCompletion 2000 ⟨"theme-4", 1450⟩ 4
      (navigationConfig 1000) 2000 1000 = 1100/31
    ∧ ((1100/31 : ℚ) < 100) := by
  constructor
  · norm_num [calculateGeneralSectionCompletion, navigationConfig, clamp100]
  · norm_num

/-- C9 (amended).  For the last section (no next breakpoint) the denominator
is `maxScrollableHeight + windowHeight - sectionStart` (the distance to the
full document height, not the remaining scrollable distance): completion
saturates at 100 exactly from `scrollOffset = maxScrollableHeight +
windowHeight` on, and at the end of the scrollable range
(`scrollOffset = maxScrollableHeight`) it is still strictly below 100 whenever
`windowHeight > 0`. -/
theorem lastSection_completion (y : ℚ) (item : NavItem) (idx : ℕ)
    (sections : List NavItem) (maxH wh : ℚ)
    (hnone : sections.get? (idx + 1) = none)
    (hrange : item.scrollPosition < maxH + wh) :
    (calculateGeneralSectionCompletion (maxH + wh) item idx sections maxH wh
      = 100)
    ∧ (maxH + wh ≤ y →
      calculateGeneralSectionCompletion y item idx sections maxH wh = 100)
    ∧ (0 < wh → item.scrollPosition ≤ maxH →
      calculateGeneralSectionCompletion maxH item idx sections maxH wh < 100) := by
  have hpos : 0 < maxH + wh - item.scrollPosition := by linarith
  have hgen : ∀ z : ℚ, calculateGeneralSectionCompletion z item idx sections maxH wh
      = clamp100 ((z - item.scrollPosition) / (maxH + wh - item.scrollPosition) * 100) := by
    intro z
    simp only [calculateGeneralSectionCompletion, hnone]
    rw [if_pos hpos]
  refine ⟨?_, ?_, ?_⟩
  · rw [hgen, div_self (ne_of_gt hpos)]
    norm_num [clamp100]
  · intro hy
    rw [hgen]
    have h1 : (1:ℚ) ≤ (y - item.scrollPosition) / (maxH + wh - item.scrollPosition) :=
      (one_le_div hpos).mpr (by linarith)
    have h2 : (100:ℚ) ≤ (y - item.scrollPosition) / (maxH + wh - item.scrollPosition) * 100 := by
      nlinarith
    unfold clamp100
    rw [max_eq_right (by linarith), min_eq_left h2]
  · intro hwh hstart
    rw [hgen]
    have h1 : (maxH - item.scrollPosition) / (maxH + wh - item.scrollPosition) < 1 :=
      (div_lt_one hpos).mpr (by linarith)
    have h0 : (0:ℚ) ≤ (maxH - item.scrollPosition) / (maxH + wh - item.scrollPosition) :=
      div_nonneg (by linarith) (le_of_lt hpos)
    have h2 : (maxH - item.scrollPosition) / (maxH + wh - item.scrollPosition) * 100 < 100 := by
      nlinarith
    unfold clamp100
    rw [max_eq_right (by nlinarith), min_eq_right (le_of_lt h2)]
    exact h2

/-- Witness for `lastSection_completion`: with the table from viewport height
1000, `maxScrollableHeight = 2000`, `windowHeight = 1000`, the last section's
completion is 100 at the document height 3000. -/
theorem lastSection_completion_witness :
    calculateGeneralSectionCompletion (2000 + 1000) ⟨"theme-4", 1450⟩ 4
      (navigationConfig 1000) 2000 1000 = 100 :=
  (lastSection_completion 3000 ⟨"theme-4", 1450⟩ 4 (navigationConfig 1000)
    2000 1000 (by simp [navigationConfig]) (by norm_num)).1

/-- C10.  During the pinned phase a theme item's completion is
`progress * 100` when its index in the themes list equals the active panel,
exactly `100` when its index is smaller, and exactly `0` when its index is
larger. -/
theorem calculateThemeSectionCompletion_cases
    (currentNavItemId : String) (themes : List ℕ) (k i : ℕ)
    (activePanel : ℤ) (progress : ℚ)
    (hparse : jsParseIntNat (jsReplaceFirst currentNavItemId "theme-" "")
      = some k)
    (hfind : themes.findIdx? (fun t => t = k) = some i) :
    ((i : ℤ) = activePanel →
      calculateThemeSectionCompletion currentNavItemId themes activePanel
        progress = progress * 100)
    ∧ ((i : ℤ) < activePanel →
      calculateThemeSectionCompletion currentNavItemId themes activePanel
        progress = 100)
    ∧ (activePanel < (i : ℤ) →
      calculateThemeSectionCompletion currentNavItemId themes activePanel
        progress = 0) := by
  simp only [calculateThemeSectionCompletion, hparse]
  rw [hfind]
  refine ⟨?_, ?_, ?_⟩ <;> intro h
  · rw [if_pos h]
  · rw [if_neg (by omega : ¬((i:ℤ) = activePanel)), if_pos h]
  · rw [if_neg (by omega : ¬((i:ℤ) = activePanel)),
      if_neg (by omega : ¬((i:ℤ) < activePanel))]

/-- Witness for `calculateThemeSectionCompletion_cases`: `theme-1` (index 0)
shows 100% when the active panel is 2. -/
theorem calculateThemeSectionCompletion_cases_witness :
    calculateThemeSectionCompletion "theme-1" [1, 2, 3, 4] 2 (1/2) = 100 :=
  (calculateThemeSectionCompletion_cases "theme-1" [1, 2, 3, 4] 1 0 2 (1/2)
    (by decide) (by decide)).2.1 (by norm_num)

/-!
## The full per-tick evaluation

One tick of the pipeline: `calculateScrollValues` publishes the overall
progress and the new `currentSection` (which feeds back into the next tick as
React state), the pin trigger's `onUpdate` publishes the panel pair, and
`updateSectionProgressState` in `VerticalNavigation.tsx` (lines 104-132)
derives the section-completion percentage:

```js
const activeNavIndex = navigationSections.findIndex(navItem => navItem.id === currentSection);
if (activeNavIndex >= 0) {
  let currentSectionCompletion = 0;
  const currentNavItem = navigationSections[activeNavIndex];
  if (isInHorizontalSection && currentNavItem.id.startsWith('theme-')) {
    currentSectionCompletion = calculateThemeSectionCompletion(...);
  } else if (currentNavItem.id === 'home') {
    currentSectionCompletion = calculateHomeSectionCompletion(...);
  } else {
    currentSectionCompletion = calculateGeneralSectionCompletion(...);
  }
  setSectionProgress({ current: activeNavIndex, percentage: Math.min(100, Math.max(0, currentSectionCompletion)) });
}
```

When `findIndex` misses, the React state keeps its previous value; its initial
value `0` is used for the percentage field here. -/

/-- The published per-tick snapshot (spec section 3, `ProgressState`). -/
structure ProgressState where
  activeSectionId : String
  sectionCompletionPercent : ℚ
  overallPageProgress : ℚ
  isInPinnedPhase : Bool
  activePanelIndex : ℤ
  panelCompletionPercent : ℚ

/-- The inputs the spec's claim C8 lists, together with the geometry the DOM
supplies (`windowHeight`, the horizontal-section rectangle and presence
flags). -/
structure EvalInputs where
  scrollY : ℚ
  windowHeight : ℚ
  maxScrollableHeight : ℚ
  isInHorizontalSection : Bool
  hasHorizontalEl : Bool
  hasPinTrigger : Bool
  pinStartScroll : ℚ
  pinEndScroll : ℚ
  rawProgress : ℚ
  rectTop : ℚ
  rectBottom : ℚ
  config : List NavItem
  themes : List ℕ

/-- One evaluation tick: all published `ProgressState` fields from the raw
inputs and the previous section state. -/
def evaluateProgressState (inp : EvalInputs) (prevSection : String) :
    ProgressState :=
  let hp := horizontalOnUpdate inp.rawProgress inp.themes.length
  let overall := calcOverallProgress inp.scrollY inp.maxScrollableHeight
    inp.isInHorizontalSection inp.hasHorizontalEl inp.hasPinTrigger
    inp.pinStartScroll inp.pinEndScroll inp.rawProgress
  let activeSection :=
    if inp.isInHorizontalSection && inp.hasHorizontalEl then
      calcSectionInHorizontal inp.themes hp.1 prevSection
    else
      calcCurrentSection inp.scrollY inp.windowHeight inp.rectTop inp.rectBottom
        inp.hasHorizontalEl inp.config prevSection
  let sectionCompletion :=
    match inp.config.findIdx? (fun navItem => navItem.id = activeSection) with
    | some i =>
      let currentNavItem := inp.config.getD i default
      let c :=
        if inp.isInHorizontalSection
            && jsStartsWith currentNavItem.id "theme-" then
          calculateThemeSectionCompletion currentNavItem.id inp.themes hp.1 hp.2
        else if currentNavItem.id = "home" then
          calculateHomeSectionCompletion inp.scrollY inp.config inp.windowHeight
        else
          calculateGeneralSectionCompletion inp.scrollY currentNavItem i
            inp.config inp.maxScrollableHeight inp.windowHeight
      clamp100 c
    | none => 0
  { activeSectionId := activeSection
    sectionCompletionPercent := sectionCompletion
    overallPageProgress := overall
    isInPinnedPhase := inp.isInHorizontalSection
    activePanelIndex := hp.1
    panelCompletionPercent := hp.2 * 100 }

/-- A concrete tick input: `scrollOffset = 650`, viewport 1000, scrollable
height 2000, outside the pinned phase, table from viewport height 1000. -/
def sampleInputs : EvalInputs :=
  ⟨650, 1000, 2000, false, false, false, 0, 0, 0, 0, 0,
    navigationConfig 1000, navigationThemes⟩

/-- C8 counterexample.  The evaluation is not determined by the claim's input
list alone: with identical listed inputs (`sampleInputs`) but different
previous-section state, the published `activeSectionId` differs — the
selection keeps its previous value when neither update branch fires
(hysteresis). -/
theorem evaluate_depends_on_previous_section :
    (evaluateProgressState sampleInputs "home").activeSectionId
      ≠ (evaluateProgressState sampleInputs "theme-1").activeSectionId := by
  have hsw : jsStartsWith "home" "theme-" = false ∧
      jsStartsWith "theme-1" "theme-" = true ∧
      jsStartsWith "theme-2" "theme-" = true ∧
      jsStartsWith "theme-3" "theme-" = true ∧
      jsStartsWith "theme-4" "theme-" = true := by
    refine ⟨?_, ?_, ?_, ?_, ?_⟩ <;> decide
  have h1 : (evaluateProgressState sampleInputs "home").activeSectionId
      = "home" := by
    show calcCurrentSection 650 1000 0 0 false (navigationConfig 1000) "home"
      = "home"
    norm_num [calcCurrentSection, selectClosest, selStep, isConsiderable,
      navDistance, navigationConfig, List.headI, hsw.1, hsw.2.1, hsw.2.2.1,
      hsw.2.2.2.1, hsw.2.2.2.2]
  have h2 : (evaluateProgressState sampleInputs "theme-1").activeSectionId
      = "theme-1" := by
    show calcCurrentSection 650 1000 0 0 false (navigationConfig 1000) "theme-1"
      = "theme-1"
    norm_num [calcCurrentSection, selectClosest, selStep, isConsiderable,
      navDistance, navigationConfig, List.headI, hsw.1, hsw.2.1, hsw.2.2.1,
      hsw.2.2.2.1, hsw.2.2.2.2]
  rw [h1, h2]
  decide

/-- C8 (amended).  The evaluation is deterministic and pure once the
previous-section state is included among the inputs: equal inputs and equal
state give an identical `ProgressState` in every field; moreover every field
other than `activeSectionId` and `sectionCompletionPercent` is independent of
the hidden state. -/
theorem evaluate_deterministic :
    (∀ (inp inp' : EvalInputs) (prev prev' : String),
      inp = inp' → prev = prev' →
      evaluateProgressState inp prev = evaluateProgressState inp' prev')
    ∧ (∀ (inp : EvalInputs) (prev prev' : String),
      (evaluateProgressState inp prev).overallPageProgress
          = (evaluateProgressState inp prev').overallPageProgress
      ∧ (evaluateProgressState inp prev).isInPinnedPhase
          = (evaluateProgressState inp prev').isInPinnedPhase
      ∧ (evaluateProgressState inp prev).activePanelIndex
          = (evaluateProgressState inp prev').activePanelIndex
      ∧ (evaluateProgressState inp prev).panelCompletionPercent
          = (evaluateProgressState inp prev').panelCompletionPercent) := by
  constructor
  · intro inp inp' prev prev' h h'
    rw [h, h']
  · intro inp prev prev'
    exact ⟨rfl, rfl, rfl, rfl⟩

/-- Witness for `evaluate_deterministic` at the concrete tick input. -/
theorem evaluate_deterministic_witness :
    evaluateProgressState sampleInputs "home"
      = evaluateProgressState sampleInputs "home" :=
  evaluate_deterministic.1 sampleInputs sampleInputs "home" "home" rfl rfl

end ScrollMapper
